import Mathlib

/- Shallow embedding of the culero-api rating and review services
   (src/src/reviews/reviews.service.ts and src/src/user/service/user.service.ts).
   Prisma tables become lists of rows, the Redis cache becomes a list of
   key, value, ttl entries, thrown NestJS exceptions become an Except error
   kind, and each state-mutating service method returns its result together
   with the updated database and cache. -/

/-- User row of the prisma schema (the fields the services read). -/
structure User where
  id : String
  email : String
  name : String
  isEmailVerified : Bool
  profilePictureUrl : Option String
deriving DecidableEq, Repr

/-- Review row (the rating table of user.service.ts has the same shape).
    postedById is nullable: null marks an anonymous review. -/
structure Review where
  id : Nat
  postedToId : String
  postedById : Option String
  professionalism : Int
  reliability : Int
  communication : Int
  comment : String
  anonymous : Bool
  createdAt : Nat
  state : String
deriving DecidableEq, Repr

/-- FavoriteReview join row, unique per userId and reviewId pair. -/
structure FavoriteReview where
  userId : String
  reviewId : Nat
deriving DecidableEq, Repr

/-- LinkedSocialAccount row. -/
structure LinkedSocialAccount where
  platform : String
  accessToken : String
  userId : String
deriving DecidableEq, Repr

/-- The relational store: review is the table used by ReviewsService and
    rating the one used by UserService; both have the Review row shape. -/
structure DB where
  users : List User
  reviews : List Review
  ratings : List Review
  favoriteReviews : List FavoriteReview
  linkedSocialAccounts : List LinkedSocialAccount
deriving DecidableEq, Repr

/-- NestJS exception kinds thrown by the services, plus typeError for a
    raw JavaScript null dereference (which NestJS surfaces as a 500). -/
inductive ErrKind where
  | notFound
  | badRequest
  | conflict
  | internal
  | typeError
deriving DecidableEq, Repr

/-- Decidable equality of Except results, used to evaluate the services at
    concrete inputs. -/
instance exceptDecEq {ε α : Type} [DecidableEq ε] [DecidableEq α] :
    DecidableEq (Except ε α) := fun a b =>
  match a, b with
  | .ok x, .ok y =>
    if h : x = y then isTrue (by rw [h]) else isFalse (by intro hc; cases hc; exact h rfl)
  | .error x, .error y =>
    if h : x = y then isTrue (by rw [h]) else isFalse (by intro hc; cases hc; exact h rfl)
  | .ok _, .error _ => isFalse (by intro hc; cases hc)
  | .error _, .ok _ => isFalse (by intro hc; cases hc)

/-- JSON values as they occur in this service: the serialized aggregates are
    objects with three, respectively four, numeric fields; the scalar
    constructors represent other payloads a cache key could hold. -/
inductive Json where
  | null
  | bool (b : Bool)
  | num (q : Rat)
  | str (s : String)
  | obj3 (professionalism reliability communication : Rat)
  | obj4 (professionalism reliability communication overall : Rat)
deriving DecidableEq, Repr

/-- JavaScript truthiness of a parsed JSON value: null, false, 0 and the
    empty string are falsy; every object is truthy. -/
def Json.truthy : Json → Bool
  | .null => false
  | .bool b => b
  | .num q => q != 0
  | .str s => s != ""
  | .obj3 _ _ _ => true
  | .obj4 _ _ _ _ => true

/-- One Redis entry: ioredis set with no EX argument stores no expiry,
    modelled as ttl none; an EX ttl would be some seconds. -/
structure CacheEntry where
  key : String
  value : Json
  ttl : Option Nat
deriving DecidableEq, Repr

abbrev Cache := List CacheEntry

/-- Redis GET: the stored serialized value, or absent. -/
def cacheGet (cache : Cache) (k : String) : Option Json :=
  (cache.find? (fun e => e.key == k)).map (fun e => e.value)

/-- Redis SET: overwrites the key and replaces any previous ttl. -/
def cacheSet (cache : Cache) (k : String) (v : Json) (ttl : Option Nat) : Cache :=
  { key := k, value := v, ttl := ttl } :: cache.filter (fun e => e.key != k)

/-- JavaScript loose equality between a nullable string and a string:
    null == s is false for every string s. -/
def jsLooseEqOptStr (a : Option String) (b : String) : Bool :=
  match a with
  | none => false
  | some s => s == b

/-- JavaScript template interpolation of a possibly undefined string. -/
def jsTemplateOptStr : Option String → String
  | some s => s
  | none => "undefined"

/-- JavaScript numeric coercion used in arithmetic: null becomes 0. -/
def jsNum (x : Option Rat) : Rat := x.getD 0

/-- Prisma aggregate _avg of one integer column over the selected rows:
    null when no row is selected, the mean otherwise. -/
def avgOf (rs : List Review) (score : Review → Int) : Option Rat :=
  if rs.length = 0 then none
  else some (((rs.foldl (fun acc r => acc + score r) 0 : Int) : Rat) / (rs.length : Rat))

/-- Prisma where clause on postedToId: an undefined filter field is ignored
    by prisma, so it selects every row. -/
def wherePostedTo (rows : List Review) (uid : Option String) : List Review :=
  match uid with
  | none => rows
  | some v => rows.filter (fun r => r.postedToId == v)

/-- Shape of the postedBy block in ReviewDto. -/
structure PostedByDto where
  id : String
  isEmailVerified : Bool
  profilePictureUrl : Option String
  name : String
deriving DecidableEq, Repr

/-- ReviewDto as produced by ReviewsService.transformReview. -/
structure ReviewDto where
  postedBy : Option PostedByDto
  isAnonymous : Bool
  professionalism : Int
  reliability : Int
  communication : Int
  comment : String
  createdAt : Nat
  isOwnReview : Bool
  postedToId : String
  id : Nat
  isFavorite : Bool
  state : String
deriving DecidableEq, Repr

/-- A review row together with the relations requested by
    includeWithReview: the postedBy author (null when postedById is null)
    and the favorites filtered to the current user. -/
structure ReviewWithIncludes where
  review : Review
  postedBy : Option User
  favorites : List FavoriteReview
deriving DecidableEq, Repr

/-- Input payload of createReview and rateUser: three scores, a comment and
    an optional anonymity flag (absent when the caller leaves it unset). -/
structure CreateReviewDto where
  professionalism : Int
  reliability : Int
  communication : Int
  comment : String
  anonymous : Option Bool
deriving DecidableEq, Repr

/-- Aggregate returned by ReviewsService.calculateAvgRating. -/
structure RatingDto where
  professionalism : Rat
  reliability : Rat
  communication : Rat
deriving DecidableEq, Repr

/-- Aggregate returned by UserService.calculateAvgRating, with overall. -/
structure AvgRatings where
  professionalism : Rat
  reliability : Rat
  communication : Rat
  overall : Rat
deriving DecidableEq, Repr

/-- JSON image of a three-field aggregate under stringify and parse. -/
def encodeRating (r : RatingDto) : Json :=
  .obj3 r.professionalism r.reliability r.communication

/-- JSON image of a four-field aggregate under stringify and parse. -/
def encodeAvgRatings (r : AvgRatings) : Json :=
  .obj4 r.professionalism r.reliability r.communication r.overall

/-- Record produced by UserService.getUserRatings for one rating row. -/
structure UserRatingRecord where
  userName : String
  profilePictureUrl : Option String
  professionalism : Int
  reliability : Int
  communication : Int
  createdOn : Nat
  comment : Option String
deriving DecidableEq, Repr

namespace ReviewsService

/-- transformReview of reviews.service.ts: shapes a fetched row for the API.
    When the review is not anonymous the source dereferences
    review.postedBy, which is non-null for every row the write path
    produces (postedById is then the id of the acting user); this is
    modelled with Option.map. isOwnReview compares the raw stored
    postedById with the current user id under JavaScript loose equality. -/
def transformReview (r : ReviewWithIncludes) (currentUserId : String) : ReviewDto :=
  { postedBy :=
      if !r.review.anonymous then
        r.postedBy.map (fun u =>
          { id := u.id, isEmailVerified := u.isEmailVerified,
            profilePictureUrl := u.profilePictureUrl, name := u.name })
      else none,
    isAnonymous := r.postedBy.isNone,
    professionalism := r.review.professionalism,
    reliability := r.review.reliability,
    communication := r.review.communication,
    comment := r.review.comment,
    createdAt := r.review.createdAt,
    isOwnReview := jsLooseEqOptStr r.review.postedById currentUserId,
    postedToId := r.review.postedToId,
    id := r.review.id,
    isFavorite := (r.favorites.find? (fun f => f.userId == currentUserId)).isSome,
    state := r.review.state }

/-- Resolution of includeWithReview for one row: the postedBy relation
    joins postedById against the user table (null foreign key gives null)
    and favorites is filtered to rows of the current user. -/
def includeFor (db : DB) (currentUserId : String) (r : Review) : ReviewWithIncludes :=
  { review := r,
    postedBy := r.postedById.bind (fun pid => db.users.find? (fun u => u.id == pid)),
    favorites := db.favoriteReviews.filter
      (fun f => f.reviewId == r.id && f.userId == currentUserId) }

/-- calculateAvgRating of reviews.service.ts: prisma aggregate _avg over
    the reviews posted to the user, each null average replaced by 0. -/
def calculateAvgRating (db : DB) (userId : String) : RatingDto :=
  let rs := db.reviews.filter (fun r => r.postedToId == userId)
  { professionalism := (avgOf rs (fun r => r.professionalism)).getD 0,
    reliability := (avgOf rs (fun r => r.reliability)).getD 0,
    communication := (avgOf rs (fun r => r.communication)).getD 0 }

/-- Insertion step for the createdAt descending order of getUserReviews. -/
def insertByCreatedAtDesc (r : Review) : List Review → List Review
  | [] => [r]
  | x :: xs =>
    if x.createdAt < r.createdAt then r :: x :: xs
    else x :: insertByCreatedAtDesc r xs

/-- orderBy createdAt desc of the prisma findMany in getUserReviews. -/
def orderByCreatedAtDesc : List Review → List Review
  | [] => []
  | x :: xs => insertByCreatedAtDesc x (orderByCreatedAtDesc xs)

/-- getUserReviews of reviews.service.ts: all reviews posted to the user,
    newest first, each shaped by transformReview for the acting user. -/
def getUserReviews (db : DB) (user : User) (postedToId : String) : List ReviewDto :=
  let rows := orderByCreatedAtDesc (db.reviews.filter (fun r => r.postedToId == postedToId))
  rows.map (fun r => transformReview (includeFor db user.id r) user.id)

/-- createReview of reviews.service.ts. The database assigns the row id,
    creation time and lifecycle state; they are passed as parameters. On a
    thrown exception the database and cache come back unchanged. The cache
    write passes no ttl, exactly as the source call cache.set(key, value). -/
def createReview (db : DB) (cache : Cache) (user : User) (postedToId : String)
    (dto : CreateReviewDto) (newId createdAt : Nat) (st : String) :
    Except ErrKind ReviewDto × DB × Cache :=
  match db.users.find? (fun u => u.id == postedToId) with
  | none => (.error .notFound, db, cache)
  | some _ =>
    if user.id == postedToId then (.error .badRequest, db, cache)
    else
      let anon := dto.anonymous.getD false
      let review : Review :=
        { id := newId, postedToId := postedToId,
          postedById := if anon then none else some user.id,
          professionalism := dto.professionalism,
          reliability := dto.reliability,
          communication := dto.communication,
          comment := dto.comment,
          anonymous := anon, createdAt := createdAt, state := st }
      let db2 : DB := { db with reviews := db.reviews ++ [review] }
      let avgRatings := calculateAvgRating db2 postedToId
      let cache2 := cacheSet cache ("avg-ratings-" ++ postedToId) (encodeRating avgRatings) none
      (.ok (transformReview (includeFor db2 user.id review) user.id), db2, cache2)

/-- getAvgUserRatings of reviews.service.ts. JSON.parse of a Redis miss
    parses the string null to the value null, so the parsed value is null
    when the key is absent; the hit test is JavaScript truthiness of that
    parsed value. On a miss the aggregate is recomputed and cached with no
    ttl (the source passes none despite its 24 hour comment). -/
def getAvgUserRatings (db : DB) (cache : Cache) (userId : String) : Json × Cache :=
  let cachedRatings : Json := (cacheGet cache ("avg-ratings-" ++ userId)).getD .null
  if cachedRatings.truthy then (cachedRatings, cache)
  else
    let avgRatings := calculateAvgRating db userId
    (encodeRating avgRatings,
     cacheSet cache ("avg-ratings-" ++ userId) (encodeRating avgRatings) none)

/-- getReview of reviews.service.ts: findUnique with includeWithReview. -/
def getReview (db : DB) (userId : String) (reviewId : Nat) : Option ReviewWithIncludes :=
  (db.reviews.find? (fun r => r.id == reviewId)).map (includeFor db userId)

/-- likeReview of reviews.service.ts. The favoriteReview.upsert call in the
    source is not awaited, and a prisma query promise executes only once it
    is awaited, so the upsert never runs and the database is unchanged. The
    subsequent transformReview of a missing review dereferences null, which
    is a JavaScript TypeError, modelled as ErrKind.typeError. -/
def likeReview (db : DB) (user : User) (reviewId : Nat) : Except ErrKind ReviewDto × DB :=
  match getReview db user.id reviewId with
  | none => (.error .typeError, db)
  | some r => (.ok (transformReview r user.id), db)

end ReviewsService

namespace UserService

/-- calculateAvgRating of user.service.ts, over the rating table. The
    overall field adds the three raw nullable averages without a null
    guard: JavaScript coerces null to 0 in the addition, so an empty row
    set yields overall 0. -/
def calculateAvgRating (db : DB) (userId : Option String) : AvgRatings :=
  let rs := wherePostedTo db.ratings userId
  let p := avgOf rs (fun r => r.professionalism)
  let rel := avgOf rs (fun r => r.reliability)
  let c := avgOf rs (fun r => r.communication)
  { professionalism := p.getD 0,
    reliability := rel.getD 0,
    communication := c.getD 0,
    overall := (jsNum p + jsNum rel + jsNum c) / 3 }

/-- rateUser of user.service.ts: same validations as createReview, inserts
    into the rating table, returns the raw row, then overwrites the
    aggregate cache entry (again with no ttl). -/
def rateUser (db : DB) (cache : Cache) (user : User) (postedToId : String)
    (dto : CreateReviewDto) (newId createdAt : Nat) (st : String) :
    Except ErrKind Review × DB × Cache :=
  match db.users.find? (fun u => u.id == postedToId) with
  | none => (.error .notFound, db, cache)
  | some _ =>
    if user.id == postedToId then (.error .badRequest, db, cache)
    else
      let anon := dto.anonymous.getD false
      let rating : Review :=
        { id := newId, postedToId := postedToId,
          postedById := if anon then none else some user.id,
          professionalism := dto.professionalism,
          reliability := dto.reliability,
          communication := dto.communication,
          comment := dto.comment,
          anonymous := anon, createdAt := createdAt, state := st }
      let db2 : DB := { db with ratings := db.ratings ++ [rating] }
      let avgRatings := calculateAvgRating db2 (some postedToId)
      let cache2 := cacheSet cache ("avg-ratings-" ++ postedToId) (encodeAvgRatings avgRatings) none
      (.ok rating, db2, cache2)

/-- getUserRatings of user.service.ts: when self is set the reviewee id is
    the acting user, and the comment field is emitted only for the non-self
    listing (comment is undefined when self). The postedBy include joins
    the nullable postedById against the user table. -/
def getUserRatings (db : DB) (user : User) (self : Bool) (revieweeUserId : Option String) :
    List UserRatingRecord :=
  let rid := if self then some user.id else revieweeUserId
  let rows := wherePostedTo db.ratings rid
  rows.map (fun r =>
    let postedBy := r.postedById.bind (fun pid => db.users.find? (fun u => u.id == pid))
    { userName := match postedBy with
        | some u => u.name
        | none => "Anonymous",
      profilePictureUrl := postedBy.bind (fun u => u.profilePictureUrl),
      professionalism := r.professionalism,
      reliability := r.reliability,
      communication := r.communication,
      createdOn := r.createdAt,
      comment := if !self then some r.comment else none })

/-- Cache key of getAvgUserRatings in user.service.ts, after the self
    rewrite of userId; an undefined id would interpolate as undefined. -/
def avgKey (user : User) (self : Bool) (userId : Option String) : String :=
  "avg-ratings-" ++ jsTemplateOptStr (if self then some user.id else userId)

/-- getAvgUserRatings of user.service.ts: same truthiness hit test and
    ttl-less cache write as the ReviewsService variant, over the rating
    table and including the overall field. -/
def getAvgUserRatings (db : DB) (cache : Cache) (user : User) (self : Bool)
    (userId : Option String) : Json × Cache :=
  let uid := if self then some user.id else userId
  let cachedRatings : Json := (cacheGet cache (avgKey user self userId)).getD .null
  if cachedRatings.truthy then (cachedRatings, cache)
  else
    let avgRatings := calculateAvgRating db uid
    (encodeAvgRatings avgRatings,
     cacheSet cache (avgKey user self userId) (encodeAvgRatings avgRatings) none)

/-- findUserById of user.service.ts. -/
def findUserById (db : DB) (id : String) : Option User :=
  db.users.find? (fun u => u.id == id)

/-- findUserByEmail of user.service.ts, called with a possibly undefined
    email. With a defined email it is a plain unique lookup; with an
    undefined one prisma strips the undefined field and then rejects the
    empty unique selector by throwing a PrismaClientValidationError, which
    surfaces as a 500 internal error — modelled as the error case. -/
def findUserByEmail (db : DB) (email : Option String) : Except ErrKind (Option User) :=
  match email with
  | none => .error .internal
  | some e => .ok (db.users.find? (fun u => u.email == e))

/-- linkSocialAccount of user.service.ts. The local email variable is
    declared and never assigned, so the duplicate-owner lookup always runs
    with an undefined email and prisma throws there: the call aborts
    before the insert, and neither the conflict branch nor the
    linkedSocialAccount.create below it (both kept here as the dead code
    they are in the source) is ever reached. -/
def linkSocialAccount (db : DB) (userId provider accessToken : String) :
    Except ErrKind Unit × DB :=
  match findUserById db userId with
  | none => (.error .notFound, db)
  | some user =>
    let email : Option String := none
    match findUserByEmail db email with
    | .error e => (.error e, db)
    | .ok (some existingUser) =>
      if existingUser.id != user.id then (.error .conflict, db)
      else
        (.ok (), { db with linkedSocialAccounts :=
          db.linkedSocialAccounts ++ [⟨provider, accessToken, userId⟩] })
    | .ok none =>
      (.ok (), { db with linkedSocialAccounts :=
        db.linkedSocialAccounts ++ [⟨provider, accessToken, userId⟩] })

end UserService

/- Concrete fixtures used by the witnesses and counterexamples. -/

/-- A user with id a. -/
def userA : User :=
  { id := "a", email := "a@x", name := "A",
    isEmailVerified := true, profilePictureUrl := none }

/-- A user with id b. -/
def userB : User :=
  { id := "b", email := "b@x", name := "B",
    isEmailVerified := false, profilePictureUrl := some "p" }

/-- The empty database. -/
def dbEmpty : DB :=
  { users := [], reviews := [], ratings := [],
    favoriteReviews := [], linkedSocialAccounts := [] }

/-- A database holding exactly the users a and b. -/
def dbAB : DB := { dbEmpty with users := [userA, userB] }

/-- An anonymous review payload. -/
def dtoAnon : CreateReviewDto :=
  { professionalism := 4, reliability := 5, communication := 3,
    comment := "ok", anonymous := some true }

/-- A payload that leaves the anonymity flag unset. -/
def dtoPlain : CreateReviewDto :=
  { professionalism := 4, reliability := 5, communication := 3,
    comment := "ok", anonymous := none }

/-- A non-anonymous review by a posted to b, already stored. -/
def reviewAB : Review :=
  { id := 1, postedToId := "b", postedById := some "a",
    professionalism := 4, reliability := 5, communication := 3,
    comment := "ok", anonymous := false, createdAt := 0, state := "ACTIVE" }

/-- Database for the favoriting scenarios: users a and b, one stored
    review, no favorites. -/
def dbLike : DB := { dbAB with reviews := [reviewAB] }

/-- The database after a posts an anonymous review to b. -/
def dbAfterAnon : DB :=
  (ReviewsService.createReview dbAB [] userA "b" dtoAnon 1 0 "ACTIVE").2.1

/-- Boolean form of the anonymity invariant over a review table: every row
    with the anonymity flag set has a null postedById. -/
def anonInvariant (rows : List Review) : Bool :=
  rows.all (fun s => !s.anonymous || s.postedById == none)

/-- C1: createReview and rateUser run their validations in a fixed order,
    recipient existence first and self-review second: a recipient id that
    matches no user fails with NotFound, also when that id is the acting
    user's own id; an existing recipient equal to the acting user fails
    with BadRequest (InvalidArgument); both failures leave the database
    and the cache unchanged. -/
theorem c1_validation_order (db : DB) (cache : Cache) (user : User) (pid : String)
    (dto : CreateReviewDto) (nid now : Nat) (st : String) :
    (db.users.find? (fun u => u.id == pid) = none →
      ReviewsService.createReview db cache user pid dto nid now st
          = (.error .notFound, db, cache)
        ∧ UserService.rateUser db cache user pid dto nid now st
          = (.error .notFound, db, cache))
    ∧ ((db.users.find? (fun u => u.id == pid)).isSome = true → user.id = pid →
      ReviewsService.createReview db cache user pid dto nid now st
          = (.error .badRequest, db, cache)
        ∧ UserService.rateUser db cache user pid dto nid now st
          = (.error .badRequest, db, cache)) := by
  constructor
  · intro h
    constructor <;> simp [ReviewsService.createReview, UserService.rateUser, h]
  · intro h1 h2
    obtain ⟨u, hu⟩ := Option.isSome_iff_exists.mp h1
    constructor <;> simp [ReviewsService.createReview, UserService.rateUser, hu, h2]

/-- Witness for C1: with an empty user table, rating the id a (which is
    also the acting user's own id) reports NotFound, and with the id
    present it reports BadRequest; state and cache are untouched. -/
theorem c1_validation_order_witness :
    (ReviewsService.createReview dbEmpty [] userA "a" dtoPlain 1 0 "ACTIVE"
        = (.error .notFound, dbEmpty, [])
      ∧ UserService.rateUser dbEmpty [] userA "a" dtoPlain 1 0 "ACTIVE"
        = (.error .notFound, dbEmpty, []))
    ∧ (ReviewsService.createReview dbAB [] userA "a" dtoPlain 1 0 "ACTIVE"
        = (.error .badRequest, dbAB, [])
      ∧ UserService.rateUser dbAB [] userA "a" dtoPlain 1 0 "ACTIVE"
        = (.error .badRequest, dbAB, [])) :=
  ⟨(c1_validation_order dbEmpty [] userA "a" dtoPlain 1 0 "ACTIVE").1 (by decide),
   (c1_validation_order dbAB [] userA "a" dtoPlain 1 0 "ACTIVE").2 (by decide) rfl⟩

/-- C2: a successful createReview or rateUser appends exactly one row
    whose postedById is null precisely when the anonymity flag (defaulted
    to false when unset) is true and the acting user's id otherwise; the
    all-anonymous-rows-have-null-author invariant is preserved by both
    write paths unconditionally, and likeReview mutates no review row. -/
theorem c2_anonymity_invariant (db : DB) (cache : Cache) (user : User) (pid : String)
    (dto : CreateReviewDto) (nid now : Nat) (st : String) :
    ((ReviewsService.createReview db cache user pid dto nid now st).1.isOk = true →
      (ReviewsService.createReview db cache user pid dto nid now st).2.1.reviews
        = db.reviews ++
          [{ id := nid, postedToId := pid,
             postedById := if dto.anonymous.getD false then none else some user.id,
             professionalism := dto.professionalism, reliability := dto.reliability,
             communication := dto.communication, comment := dto.comment,
             anonymous := dto.anonymous.getD false, createdAt := now, state := st }])
    ∧ ((UserService.rateUser db cache user pid dto nid now st).1.isOk = true →
      (UserService.rateUser db cache user pid dto nid now st).2.1.ratings
        = db.ratings ++
          [{ id := nid, postedToId := pid,
             postedById := if dto.anonymous.getD false then none else some user.id,
             professionalism := dto.professionalism, reliability := dto.reliability,
             communication := dto.communication, comment := dto.comment,
             anonymous := dto.anonymous.getD false, createdAt := now, state := st }])
    ∧ (anonInvariant db.reviews = true →
        anonInvariant (ReviewsService.createReview db cache user pid dto nid now st).2.1.reviews
          = true)
    ∧ (anonInvariant db.ratings = true →
        anonInvariant (UserService.rateUser db cache user pid dto nid now st).2.1.ratings
          = true)
    ∧ (∀ rid, (ReviewsService.likeReview db user rid).2.reviews = db.reviews) := by
  refine ⟨?_, ?_, ?_, ?_, ?_⟩
  · intro h
    cases hf : db.users.find? (fun u => u.id == pid) with
    | none => simp [ReviewsService.createReview, hf, Except.isOk, Except.toBool] at h
    | some u =>
      cases hid : user.id == pid with
      | true => simp [ReviewsService.createReview, hf, hid, Except.isOk, Except.toBool] at h
      | false => simp [ReviewsService.createReview, hf, hid]
  · intro h
    cases hf : db.users.find? (fun u => u.id == pid) with
    | none => simp [UserService.rateUser, hf, Except.isOk, Except.toBool] at h
    | some u =>
      cases hid : user.id == pid with
      | true => simp [UserService.rateUser, hf, hid, Except.isOk, Except.toBool] at h
      | false => simp [UserService.rateUser, hf, hid]
  · intro h
    cases hf : db.users.find? (fun u => u.id == pid) with
    | none => simpa [ReviewsService.createReview, hf] using h
    | some u =>
      cases hid : user.id == pid with
      | true => simpa [ReviewsService.createReview, hf, hid] using h
      | false =>
        cases hA : dto.anonymous.getD false <;>
          simp [ReviewsService.createReview, hf, hid, hA, anonInvariant,
            List.all_append] <;>
          simpa [anonInvariant] using h
  · intro h
    cases hf : db.users.find? (fun u => u.id == pid) with
    | none => simpa [UserService.rateUser, hf] using h
    | some u =>
      cases hid : user.id == pid with
      | true => simpa [UserService.rateUser, hf, hid] using h
      | false =>
        cases hA : dto.anonymous.getD false <;>
          simp [UserService.rateUser, hf, hid, hA, anonInvariant,
            List.all_append] <;>
          simpa [anonInvariant] using h
  · intro rid
    cases hg : ReviewsService.getReview db user.id rid <;>
      simp [ReviewsService.likeReview, hg]

/-- Witness for C2: posting the anonymous payload from a to b succeeds and
    stores the row with a null postedById, preserving the invariant. -/
theorem c2_anonymity_invariant_witness :
    (ReviewsService.createReview dbAB [] userA "b" dtoAnon 1 0 "ACTIVE").2.1.reviews
      = dbAB.reviews ++
        [{ id := 1, postedToId := "b",
           postedById := if dtoAnon.anonymous.getD false then none else some userA.id,
           professionalism := dtoAnon.professionalism, reliability := dtoAnon.reliability,
           communication := dtoAnon.communication, comment := dtoAnon.comment,
           anonymous := dtoAnon.anonymous.getD false, createdAt := 0, state := "ACTIVE" }]
    ∧ anonInvariant (ReviewsService.createReview dbAB [] userA "b" dtoAnon 1 0 "ACTIVE").2.1.reviews
      = true :=
  ⟨(c2_anonymity_invariant dbAB [] userA "b" dtoAnon 1 0 "ACTIVE").1 (by decide),
   (c2_anonymity_invariant dbAB [] userA "b" dtoAnon 1 0 "ACTIVE").2.2.1 (by decide)⟩

/-- C3 counterexample: a cache state in which the key avg-ratings-u1 is
    present but holds the serialized value null is not treated as a hit:
    the call does not return the parsed cached value (null) verbatim, so
    the hit test is not key presence. -/
theorem c3_presence_counterexample :
    ¬ ((ReviewsService.getAvgUserRatings dbEmpty
          [{ key := "avg-ratings-u1", value := Json.null, ttl := none }] "u1").1
        = Json.null
      ∧ (ReviewsService.getAvgUserRatings dbEmpty
          [{ key := "avg-ratings-u1", value := Json.null, ttl := none }] "u1").2
        = [{ key := "avg-ratings-u1", value := Json.null, ttl := none }]) := by
  decide

/-- C3 amended: the hit test is JavaScript truthiness of the JSON-parsed
    cached value, not key presence; any present key whose value parses
    truthy — in particular every serialized aggregate object, the all-zero
    one included — is returned verbatim with the cache untouched, in both
    service variants. -/
theorem c3_truthy_cache_hit :
    (∀ (db : DB) (cache : Cache) (userId : String) (v : Json),
      cacheGet cache ("avg-ratings-" ++ userId) = some v → v.truthy = true →
      ReviewsService.getAvgUserRatings db cache userId = (v, cache))
    ∧ (∀ (db : DB) (cache : Cache) (user : User) (self : Bool)
        (userId : Option String) (v : Json),
      cacheGet cache (UserService.avgKey user self userId) = some v → v.truthy = true →
      UserService.getAvgUserRatings db cache user self userId = (v, cache)) := by
  constructor
  · intro db cache userId v hget htruthy
    simp [ReviewsService.getAvgUserRatings, hget, htruthy]
  · intro db cache user self userId v hget htruthy
    simp [UserService.getAvgUserRatings, hget, htruthy]

/-- Witness for the amended C3: the all-zero aggregate object cached under
    avg-ratings-u1 is a valid hit and is returned verbatim. -/
theorem c3_truthy_cache_hit_witness :
    ReviewsService.getAvgUserRatings dbEmpty
        [{ key := "avg-ratings-u1", value := Json.obj3 0 0 0, ttl := none }] "u1"
      = (Json.obj3 0 0 0,
         [{ key := "avg-ratings-u1", value := Json.obj3 0 0 0, ttl := none }]) :=
  c3_truthy_cache_hit.1 dbEmpty
    [{ key := "avg-ratings-u1", value := Json.obj3 0 0 0, ttl := none }]
    "u1" (Json.obj3 0 0 0) (by decide) (by decide)

/-- C4: on a miss both getAvgUserRatings variants recompute the aggregate
    from the recipient's rows, write it under avg-ratings-id and return
    it, but the written entry carries no expiry: the source calls
    cache.set(key, value) without a ttl argument, so the entry persists
    indefinitely instead of expiring after 24 hours. -/
theorem c4_cache_write_has_no_ttl :
    ReviewsService.getAvgUserRatings dbEmpty [] "u1"
      = (Json.obj3 0 0 0, [{ key := "avg-ratings-u1", value := Json.obj3 0 0 0, ttl := none }])
    ∧ UserService.getAvgUserRatings dbEmpty [] userA false (some "u1")
      = (Json.obj4 0 0 0 0,
         [{ key := "avg-ratings-u1", value := Json.obj4 0 0 0 0, ttl := none }])
    ∧ (∀ (db : DB) (cache : Cache) (userId : String) (e : CacheEntry),
        e ∈ (ReviewsService.getAvgUserRatings db cache userId).2 →
        e ∉ cache → e.ttl = none) := by
  refine ⟨by decide, ?_, ?_⟩
  · simp [UserService.getAvgUserRatings, UserService.avgKey, jsTemplateOptStr,
      cacheGet, dbEmpty, UserService.calculateAvgRating, wherePostedTo, avgOf,
      jsNum, encodeAvgRatings, cacheSet, Json.truthy]
  · intro db cache userId e he hne
    by_cases hhit : ((cacheGet cache ("avg-ratings-" ++ userId)).getD .null).truthy = true
    · simp [ReviewsService.getAvgUserRatings, hhit] at he
      exact absurd he hne
    · simp [ReviewsService.getAvgUserRatings, hhit, cacheSet] at he
      rcases he with he | he
      · simp [he]
      · exact absurd he.1 hne

/-- Witness for C4: the general no-ttl statement applied to the concrete
    miss on an empty cache. -/
theorem c4_cache_write_has_no_ttl_witness :
    ({ key := "avg-ratings-u1", value := Json.obj3 0 0 0, ttl := none } : CacheEntry).ttl
      = none :=
  c4_cache_write_has_no_ttl.2.2 dbEmpty [] "u1"
    { key := "avg-ratings-u1", value := Json.obj3 0 0 0, ttl := none }
    (by decide) (by decide)

/-- C5: a recipient with zero review rows yields the exact all-zero
    aggregate in both services: calculateAvgRating replaces the null
    averages with 0, overall is 0 as well (JavaScript coerces the null
    sums to 0 before the division by 3), and a cache miss on such a user
    returns the all-zero object, never null and never an error. -/
theorem c5_zero_reviews_zero_aggregate (db : DB) (cache : Cache) (userId : String) :
    (db.reviews.filter (fun r => r.postedToId == userId) = [] →
      ReviewsService.calculateAvgRating db userId
          = { professionalism := 0, reliability := 0, communication := 0 }
        ∧ (cacheGet cache ("avg-ratings-" ++ userId) = none →
            (ReviewsService.getAvgUserRatings db cache userId).1 = Json.obj3 0 0 0))
    ∧ (db.ratings.filter (fun r => r.postedToId == userId) = [] →
      UserService.calculateAvgRating db (some userId)
        = { professionalism := 0, reliability := 0, communication := 0, overall := 0 }) := by
  constructor
  · intro h
    have hcalc : ReviewsService.calculateAvgRating db userId
        = { professionalism := 0, reliability := 0, communication := 0 } := by
      simp [ReviewsService.calculateAvgRating, h, avgOf]
    refine ⟨hcalc, ?_⟩
    intro hmiss
    simp [ReviewsService.getAvgUserRatings, hmiss, hcalc, Json.truthy, encodeRating]
  · intro h
    simp [UserService.calculateAvgRating, wherePostedTo, h, avgOf, jsNum]

/-- Witness for C5: the empty database with an empty cache produces the
    all-zero aggregates for user u1. -/
theorem c5_zero_reviews_zero_aggregate_witness :
    (ReviewsService.calculateAvgRating dbEmpty "u1"
        = { professionalism := 0, reliability := 0, communication := 0 }
      ∧ (ReviewsService.getAvgUserRatings dbEmpty [] "u1").1 = Json.obj3 0 0 0)
    ∧ UserService.calculateAvgRating dbEmpty (some "u1")
      = { professionalism := 0, reliability := 0, communication := 0, overall := 0 } :=
  ⟨⟨((c5_zero_reviews_zero_aggregate dbEmpty [] "u1").1 (by decide)).1,
    ((c5_zero_reviews_zero_aggregate dbEmpty [] "u1").1 (by decide)).2 (by decide)⟩,
   (c5_zero_reviews_zero_aggregate dbEmpty [] "u1").2 (by decide)⟩

/-- An anonymous stored row with null postedById, as the write path
    produces, packaged with its includes. -/
def rwiAnon : ReviewWithIncludes :=
  { review := { reviewAB with anonymous := true, postedById := none },
    postedBy := none, favorites := [] }

/-- C6 counterexample: after a posts an anonymous review to b, the listing
    rendered for a itself shows the author block omitted and isOwnReview
    false — the authoring caller does not receive isOwnReview true,
    because the stored postedById is null. -/
theorem c6_own_anonymous_counterexample :
    (ReviewsService.getUserReviews dbAfterAnon userA "b").map
        (fun d => (d.postedBy, d.isOwnReview))
      = [(none, false)]
    ∧ ¬ (∀ d ∈ ReviewsService.getUserReviews dbAfterAnon userA "b",
          d.isOwnReview = true) := by
  constructor
  · decide
  · decide

/-- C6 amended: an anonymous review is rendered with the author identity
    block omitted regardless of the stored author id, and isOwnReview is
    the JavaScript loose comparison of the raw stored postedById with the
    acting user's id; since anonymous reviews are stored with a null
    postedById, that comparison is false for them — the author of an
    anonymous review is not flagged as its owner. -/
theorem c6_anonymous_shaping (r : ReviewWithIncludes) (uid : String) :
    (r.review.anonymous = true → (ReviewsService.transformReview r uid).postedBy = none)
    ∧ (ReviewsService.transformReview r uid).isOwnReview
        = jsLooseEqOptStr r.review.postedById uid
    ∧ (r.review.postedById = none →
        (ReviewsService.transformReview r uid).isOwnReview = false) := by
  refine ⟨?_, rfl, ?_⟩
  · intro h
    simp [ReviewsService.transformReview, h]
  · intro h
    simp [ReviewsService.transformReview, h, jsLooseEqOptStr]

/-- Witness for the amended C6: the concrete anonymous row is rendered
    with no author block and isOwnReview false, also for the id a. -/
theorem c6_anonymous_shaping_witness :
    (ReviewsService.transformReview rwiAnon "a").postedBy = none
    ∧ (ReviewsService.transformReview rwiAnon "a").isOwnReview
        = jsLooseEqOptStr rwiAnon.review.postedById "a"
    ∧ (ReviewsService.transformReview rwiAnon "a").isOwnReview = false :=
  ⟨(c6_anonymous_shaping rwiAnon "a").1 rfl,
   (c6_anonymous_shaping rwiAnon "a").2.1,
   (c6_anonymous_shaping rwiAnon "a").2.2 rfl⟩

/-- C7: likeReview at a state with users a and b, one stored review and no
    favorite rows: the un-awaited prisma upsert never executes, so the
    call leaves the database unchanged with zero FavoriteReview rows and
    returns isFavorite false; the repeated call does the same — instead of
    the claimed one row and isFavorite true on both calls. -/
theorem c7_like_review_writes_no_row :
    (ReviewsService.likeReview dbLike userA 1).2 = dbLike
    ∧ dbLike.favoriteReviews = []
    ∧ ((ReviewsService.likeReview dbLike userA 1).1.map (fun d => d.isFavorite))
        = Except.ok false
    ∧ ((ReviewsService.likeReview
          (ReviewsService.likeReview dbLike userA 1).2 userA 1).1.map
        (fun d => d.isFavorite)) = Except.ok false := by
  decide

/-- C8: likeReview on a reviewId with no Review row reaches
    transformReview with a null review and dereferences it — a JavaScript
    TypeError surfaced as an internal error, not the claimed NotFound. -/
theorem c8_like_missing_review_null_deref :
    ReviewsService.likeReview dbLike userA 99 = (.error .typeError, dbLike)
    ∧ ErrKind.typeError ≠ ErrKind.notFound := by
  decide

/-- C9: linkSocialAccount reports NotFound when the target user is
    missing; when the target exists, the duplicate-owner lookup runs on
    the never-assigned (undefined) email local and prisma rejects the
    empty unique selector with a thrown validation error, so the call
    aborts with an internal error before the insert: no input reaches the
    Conflict branch, and the database — its LinkedSocialAccount table
    included — is never changed. -/
theorem c9_conflict_unreachable (db : DB) (userId provider accessToken : String) :
    (UserService.linkSocialAccount db userId provider accessToken).1
        ≠ .error .conflict
    ∧ (UserService.findUserById db userId = none →
        UserService.linkSocialAccount db userId provider accessToken
          = (.error .notFound, db))
    ∧ ((UserService.findUserById db userId).isSome = true →
        UserService.linkSocialAccount db userId provider accessToken
          = (.error .internal, db))
    ∧ (UserService.linkSocialAccount db userId provider accessToken).2 = db := by
  refine ⟨?_, ?_, ?_, ?_⟩
  · cases hf : UserService.findUserById db userId <;>
      simp [UserService.linkSocialAccount, hf, UserService.findUserByEmail]
  · intro h
    simp [UserService.linkSocialAccount, h]
  · intro h
    obtain ⟨u, hu⟩ := Option.isSome_iff_exists.mp h
    simp [UserService.linkSocialAccount, hu, UserService.findUserByEmail]
  · cases hf : UserService.findUserById db userId <;>
      simp [UserService.linkSocialAccount, hf, UserService.findUserByEmail]

/-- Witness for C9: linking to the existing user a raises no Conflict but
    aborts with the internal validation error, leaving the database
    unchanged; linking to a missing user reports NotFound. -/
theorem c9_conflict_unreachable_witness :
    (UserService.linkSocialAccount dbAB "a" "github" "tok").1 ≠ .error .conflict
    ∧ UserService.linkSocialAccount dbEmpty "a" "github" "tok"
        = (.error .notFound, dbEmpty)
    ∧ UserService.linkSocialAccount dbAB "a" "github" "tok"
        = (.error .internal, dbAB)
    ∧ (UserService.linkSocialAccount dbAB "a" "github" "tok").2 = dbAB :=
  ⟨(c9_conflict_unreachable dbAB "a" "github" "tok").1,
   (c9_conflict_unreachable dbEmpty "a" "github" "tok").2.1 (by decide),
   (c9_conflict_unreachable dbAB "a" "github" "tok").2.2.1 (by decide),
   (c9_conflict_unreachable dbAB "a" "github" "tok").2.2.2⟩

/-- C10: in getUserRatings each returned record carries the free-text
    comment exactly when the listing is for another user: with self true
    the comment field is undefined in every record, with self false it is
    present in every record. -/
theorem c10_comment_omitted_for_self (db : DB) (user : User) (self : Bool)
    (revieweeUserId : Option String) :
    (UserService.getUserRatings db user self revieweeUserId).all
      (fun rec => rec.comment.isSome == !self) = true := by
  cases self <;>
    simp [UserService.getUserRatings, List.all_map, Function.comp, List.all_eq_true]
